import Mathlib

set_option autoImplicit false

/-!
Verification of the cloud-load-model simulation core.

The definitions below are a shallow embedding of `src/model/core.py`,
`src/model/load_balancer.py`, `src/model/autoscaler.py` and
`src/model/metrics.py`.  Simulated time and all metric values are modelled
by `ℚ`; counts by `ℕ`.  Stateful Python methods become explicit
state-passing functions; the stochastic draws (inter-arrival gaps, service
times, network delays) become explicit parameters ranging over the values
the corresponding distributions can produce.
-/

namespace CloudSim

/-! ### Load balancer (`src/model/load_balancer.py`) -/

/-- A processing node as seen by the balancer: its pool id and the
`is_active` flag (`StorageNode.node_id`, `StorageNode.is_active`). -/
structure StorageNode where
  node_id : Nat
  is_active : Bool
deriving DecidableEq, Repr

/-- Embeds `LoadBalancer.select_node` (load_balancer.py lines 23-45).  The whole
balancer state is the single cursor `current_index`; the function returns
the selected node (if any) together with the new cursor. -/
def select_node (nodes : List StorageNode) (current_index : Nat) :
    Option StorageNode × Nat :=
  if nodes.isEmpty then (none, current_index)
  else
    let active_nodes := nodes.filter (fun n => n.is_active)
    if h : active_nodes.length = 0 then (none, current_index)
    else
      (some (active_nodes.get
          ⟨current_index % active_nodes.length,
           Nat.mod_lt _ (Nat.pos_of_ne_zero h)⟩),
       (current_index + 1) % active_nodes.length)

/-! ### Autoscaler (`src/model/autoscaler.py`) -/

/-- The metrics dictionary consumed by the scaling decisions
(`queue_length`, `avg_response_time`). -/
structure ScalerMetrics where
  queue_length : ℚ
  avg_response_time : ℚ
deriving DecidableEq, Repr

/-- The mutable state of `AutoScaler` relevant to scaling decisions
(autoscaler.py lines 48-61). -/
structure AutoScaler where
  min_nodes : Nat
  max_nodes : Nat
  low_threshold : ℚ
  high_threshold : ℚ
  control_interval : ℚ
  scale_cooldown : ℚ
  last_scale_time : ℚ
  consecutive_low_intervals : Nat
  required_consecutive_low : Nat
deriving DecidableEq, Repr

/-- The compound condition of `AutoScaler.should_scale_up`
(autoscaler.py lines 115-130); `active_count` is
`len(self.model.get_active_nodes())` and `now` is `self.env.now`. -/
abbrev up_condition (s : AutoScaler) (now : ℚ) (active_count : Nat)
    (m : ScalerMetrics) : Prop :=
  (m.queue_length > s.high_threshold ∨ m.avg_response_time > s.high_threshold)
    ∧ active_count < s.max_nodes
    ∧ s.scale_cooldown ≤ now - s.last_scale_time

/-- Embeds `AutoScaler.should_scale_up`, which returns exactly `up_condition`. -/
def should_scale_up (s : AutoScaler) (now : ℚ) (active_count : Nat)
    (m : ScalerMetrics) : Bool :=
  decide (up_condition s now active_count m)

/-- The compound condition tested by `AutoScaler.should_scale_down`
(autoscaler.py lines 142-158): both metrics below `low_threshold`, active
nodes above `min_nodes`, and cooldown elapsed. -/
abbrev down_condition (s : AutoScaler) (now : ℚ) (active_count : Nat)
    (m : ScalerMetrics) : Prop :=
  (m.queue_length < s.low_threshold ∧ m.avg_response_time < s.low_threshold)
    ∧ s.min_nodes < active_count
    ∧ s.scale_cooldown ≤ now - s.last_scale_time

/-- Embeds `AutoScaler.should_scale_down` (autoscaler.py lines 132-164).  The
method mutates `consecutive_low_intervals`, so here it returns the new
scaler state along with the decision. -/
def should_scale_down (s : AutoScaler) (now : ℚ) (active_count : Nat)
    (m : ScalerMetrics) : Bool × AutoScaler :=
  if down_condition s now active_count m then
    let s1 := { s with
      consecutive_low_intervals := s.consecutive_low_intervals + 1 }
    (decide (s1.required_consecutive_low ≤ s1.consecutive_low_intervals), s1)
  else
    (false, { s with consecutive_low_intervals := 0 })

/-- Embeds `AutoScaler.scale_up` (autoscaler.py lines 186-204).  `active_count`
stands for the size of the model's active node pool; `add_node` appends one
active node, so a successful call yields `active_count + 1`. -/
def scale_up (s : AutoScaler) (now : ℚ) (active_count : Nat) :
    Bool × AutoScaler × Nat :=
  if active_count < s.max_nodes then
    (true,
     { s with last_scale_time := now, consecutive_low_intervals := 0 },
     active_count + 1)
  else
    (false, s, active_count)

/-- Embeds `AutoScaler.scale_down` (autoscaler.py lines 206-224).  `remove_node`
pops the most recent (active) node, so a successful call yields
`active_count - 1`. -/
def scale_down (s : AutoScaler) (now : ℚ) (active_count : Nat) :
    Bool × AutoScaler × Nat :=
  if s.min_nodes < active_count then
    (true,
     { s with last_scale_time := now, consecutive_low_intervals := 0 },
     active_count - 1)
  else
    (false, s, active_count)

/-- Which scaling action a control tick performed. -/
inductive ScalingAction where
  | up
  | down
deriving DecidableEq, Repr

/-- One tick of `AutoScaler.control_loop` (autoscaler.py lines 288-291):
try `should_scale_up`, else `should_scale_down`, executing the matching
action.  Returns the new scaler state, the new active node count and the
action performed, if any. -/
def control_step (s : AutoScaler) (active_count : Nat) (now : ℚ)
    (m : ScalerMetrics) : AutoScaler × Nat × Option ScalingAction :=
  if should_scale_up s now active_count m then
    let r := scale_up s now active_count
    (r.2.1, r.2.2, if r.1 then some ScalingAction.up else none)
  else
    let d := should_scale_down s now active_count m
    if d.1 then
      let r := scale_down d.2 now active_count
      (r.2.1, r.2.2, if r.1 then some ScalingAction.down else none)
    else
      (d.2, active_count, none)

/-- Iterated control ticks.  Each trace element supplies the tick's virtual
time and its interval metrics; the result records the final scaler state,
the final active node count and the (chronological) times of the executed
scaling actions. -/
def run_control (s : AutoScaler) (active_count : Nat) :
    List (ℚ × ScalerMetrics) → AutoScaler × Nat × List ℚ
  | [] => (s, active_count, [])
  | (t, m) :: rest =>
    let r := control_step s active_count t m
    let w := run_control r.1 r.2.1 rest
    (w.1, w.2.1,
     (match r.2.2 with
      | some _ => [t]
      | none => []) ++ w.2.2)

/-! ### Metrics averaging (`src/model/metrics.py`, `src/model/autoscaler.py`) -/

/-- The `avg_queue_length` computation of
`MetricsCollector.get_aggregated_metrics` (metrics.py lines 150-169),
on the paired `(time, queue_length)` series (the two parallel series are
always appended together by `record_snapshot`).  The loop accumulates
`queue_len[i] * (t[i+1] - t[i])`. -/
def collector_avg_queue (series : List (ℚ × ℚ)) : ℚ :=
  if 1 < series.length then
    let steps := series.zip series.tail
    let total_area := (steps.map (fun p => p.1.2 * (p.2.1 - p.1.1))).sum
    let total_time := (steps.map (fun p => p.2.1 - p.1.1)).sum
    if 0 < total_time then total_area / total_time
    else
      match series.getLast? with
      | some p => p.2
      | none => 0
  else
    match series with
    | [] => 0
    | _ :: _ => (series.map Prod.snd).sum / (series.length : ℚ)

/-- The per-interval average-queue-length loop of
`AutoScaler._calculate_interval_metrics` (autoscaler.py lines 339-360):
trapezoids `((q1 + q2) / 2) * dt`, counting only steps with `dt > 0`;
`current_queue_length` is the fallback. -/
def scaler_trap_avg (qls : List (ℚ × ℚ)) (current_queue_length : ℚ) : ℚ :=
  if 1 < qls.length then
    let steps := qls.zip qls.tail
    let total_area := (steps.map (fun p =>
        if 0 < p.2.1 - p.1.1 then ((p.1.2 + p.2.2) / 2) * (p.2.1 - p.1.1)
        else 0)).sum
    let total_time := (steps.map (fun p =>
        if 0 < p.2.1 - p.1.1 then p.2.1 - p.1.1 else 0)).sum
    if 0 < total_time then total_area / total_time
    else current_queue_length
  else
    match qls.getLast? with
    | some p => p.2
    | none => current_queue_length

/-- The sample list actually averaged by `_calculate_interval_metrics`
(autoscaler.py lines 320-322): the interval's samples, with a final
`(interval_end_time, current_queue_length)` appended when the list is
empty or its last time precedes the interval end. -/
def scaler_interval_samples (qls : List (ℚ × ℚ))
    (interval_end_time current_queue_length : ℚ) : List (ℚ × ℚ) :=
  match qls.getLast? with
  | none => qls ++ [(interval_end_time, current_queue_length)]
  | some p =>
    if p.1 < interval_end_time then
      qls ++ [(interval_end_time, current_queue_length)]
    else qls

/-- The `queue_length` entry returned by
`AutoScaler._calculate_interval_metrics` (autoscaler.py lines 309-376). -/
def scaler_interval_avg_queue (qls : List (ℚ × ℚ))
    (interval_end_time current_queue_length : ℚ) : ℚ :=
  scaler_trap_avg
    (scaler_interval_samples qls interval_end_time current_queue_length)
    current_queue_length

/-- Left-endpoint (rectangle-rule) integral of a `(time, value)` series,
written as a plain recursion for comparison with the collector loop. -/
def left_rule_integral : List (ℚ × ℚ) → ℚ
  | (t1, q1) :: (t2, q2) :: rest =>
    q1 * (t2 - t1) + left_rule_integral ((t2, q2) :: rest)
  | _ => 0

/-- Trapezoidal integral of a `(time, value)` series, written as a plain
recursion for comparison with the autoscaler loop. -/
def trapezoid_integral : List (ℚ × ℚ) → ℚ
  | (t1, q1) :: (t2, q2) :: rest =>
    ((q1 + q2) / 2) * (t2 - t1) + trapezoid_integral ((t2, q2) :: rest)
  | _ => 0

/-! ### Request lifecycle (`src/model/core.py`) -/

/-- Rejection reason codes assigned in core.py
(lines 328, 396, 427). -/
inductive RejectReason where
  | queue_full
  | wait_timeout
  | no_nodes
deriving DecidableEq, Repr

/-- The `Request` dataclass (core.py lines 15-37). -/
structure Request where
  request_id : Nat
  arrival_time : ℚ
  queue_entry_time : Option ℚ := none
  start_time : Option ℚ := none
  finish_time : Option ℚ := none
  node_id : Option Nat := none
  rejected : Bool := false
  rejected_reason : Option RejectReason := none
  service_time : Option ℚ := none
deriving DecidableEq, Repr

/-- Embeds `Request.get_response_time` (core.py lines 39-49): `finish - arrival`
when finished, else `None` (`arrival_time` is always set). -/
def Request.get_response_time (r : Request) : Option ℚ :=
  match r.finish_time with
  | some f => some (f - r.arrival_time)
  | none => none

/-- The configuration parameters of `CloudSystemModel` that govern the
request lifecycle paths. -/
structure SysConfig where
  max_requests_in_flight : Option Nat
  max_wait_time : Option ℚ
deriving Repr

/-- The request-holding state of `CloudSystemModel`: the id counter, the
queue, the requests currently being dispatched/served, and the two
terminal collections. -/
structure SysState where
  next_request_id : Nat
  queue : List Request
  in_service : List Request
  processed_requests : List Request
  rejected_requests : List Request
deriving Repr

/-- The state right after `CloudSystemModel.__init__`
(core.py lines 171-183). -/
def initState : SysState :=
  { next_request_id := 0
    queue := []
    in_service := []
    processed_requests := []
    rejected_requests := [] }

/-- One scheduler-visible step of the request lifecycle.
`generate t svc`: one iteration of `request_generator` producing a request
at time `t` with drawn service time `svc` (core.py lines 304-347).
`dispatch t d a nid`: a `_single_request_processor` worker dequeues the
head request at time `t`, applies the wait-timeout check, and either
rejects (`no_nodes` when the active count `a` is zero) or starts it on
node `nid` after network delay `d` (core.py lines 386-436).
`complete i t`: the node finishes in-service request `i` at time `t` and
`_process_request` appends it to `processed_requests`
(core.py lines 104-106 and 436-439). -/
inductive SimEvent where
  | generate (t svc : ℚ)
  | dispatch (t net_delay : ℚ) (active_count nid : Nat)
  | complete (i : Nat) (t : ℚ)
deriving Repr

/-- The wait-timeout admission check of `_single_request_processor`
(core.py lines 391-393): rejects when `now - queue_entry_time`
strictly exceeds `max_wait_time`. -/
def dispatch_timed_out (cfg : SysConfig) (r : Request) (now : ℚ) : Bool :=
  match cfg.max_wait_time, r.queue_entry_time with
  | some w, some qe => decide (w < now - qe)
  | _, _ => false

/-- The effect of one `SimEvent` on the system state, following the code
paths cited in `SimEvent`. -/
def stepEvent (cfg : SysConfig) (s : SysState) : SimEvent → SysState
  | .generate t svc =>
    let r : Request :=
      { request_id := s.next_request_id, arrival_time := t,
        service_time := some svc }
    let s1 := { s with next_request_id := s.next_request_id + 1 }
    match cfg.max_requests_in_flight with
    | some cap =>
      if cap ≤ s.queue.length + s.in_service.length then
        { s1 with rejected_requests := s1.rejected_requests ++
            [{ r with
                rejected := true
                rejected_reason := some RejectReason.queue_full }] }
      else
        { s1 with queue := s1.queue ++ [{ r with queue_entry_time := some t }] }
    | none =>
      { s1 with queue := s1.queue ++ [{ r with queue_entry_time := some t }] }
  | .dispatch t net_delay active_count nid =>
    match s.queue with
    | [] => s
    | r :: rest =>
      let s1 := { s with queue := rest }
      if dispatch_timed_out cfg r t then
        { s1 with rejected_requests := s1.rejected_requests ++
            [{ r with
                rejected := true
                rejected_reason := some RejectReason.wait_timeout }] }
      else if active_count = 0 then
        { s1 with rejected_requests := s1.rejected_requests ++
            [{ r with
                rejected := true
                rejected_reason := some RejectReason.no_nodes }] }
      else
        { s1 with in_service := s1.in_service ++
            [{ r with
                start_time := some (t + net_delay)
                node_id := some nid }] }
  | .complete i t =>
    if h : i < s.in_service.length then
      { s with
        in_service := s.in_service.eraseIdx i
        processed_requests := s.processed_requests ++
          [{ s.in_service.get ⟨i, h⟩ with finish_time := some t }] }
    else s

/-- Run a list of events from a state. -/
def runEvents (cfg : SysConfig) (s : SysState) : List SimEvent → SysState
  | [] => s
  | e :: es => runEvents cfg (stepEvent cfg s e) es

/-- All requests currently tracked by the state, across the four holding
places (queue, in service, processed, rejected). -/
def SysState.allRequests (s : SysState) : List Request :=
  s.queue ++ s.in_service ++ s.processed_requests ++ s.rejected_requests

/-- The ids of a list of requests. -/
def idsOf (l : List Request) : List Nat :=
  l.map Request.request_id

/-- The bookkeeping invariant of the request lifecycle: ids are unique
and below the id counter, every generated request sits in exactly one of
the four holding places (so the four sizes sum to the number generated),
terminal collections carry the matching flags, and requests still in the
queue or in service are unfinished and not rejected. -/
structure SysInv (s : SysState) : Prop where
  nodup : (idsOf s.allRequests).Nodup
  ids_lt : ∀ n ∈ idsOf s.allRequests, n < s.next_request_id
  total : s.allRequests.length = s.next_request_id
  proc_ok : ∀ r ∈ s.processed_requests,
    r.rejected = false ∧ r.finish_time.isSome = true
  rej_ok : ∀ r ∈ s.rejected_requests,
    r.rejected = true ∧ r.finish_time = none
  queue_ok : ∀ r ∈ s.queue, r.rejected = false ∧ r.finish_time = none
  serv_ok : ∀ r ∈ s.in_service, r.rejected = false ∧ r.finish_time = none

/-- The timestamps a request acquires on the successful path, composed
from the source: `queue_entry_time := env.now` at the enqueue instant,
which is the creation instant (core.py line 341); `start_time` stamped by
`StorageNode.process_request` after the queue wait and the network delay
(core.py lines 433 and 99); `finish_time` stamped after the node-slot
wait plus the service time (core.py lines 103-106).  `queue_wait`,
`net_delay`, `slot_wait` and `svc` are the elapsed virtual-time spans of
the corresponding suspensions. -/
def completed_request (rid : Nat) (arrival queue_wait net_delay slot_wait svc : ℚ)
    (nid : Nat) : Request :=
  { request_id := rid
    arrival_time := arrival
    queue_entry_time := some arrival
    start_time := some (arrival + queue_wait + net_delay)
    finish_time := some (arrival + queue_wait + net_delay + slot_wait + svc)
    node_id := some nid
    rejected := false
    rejected_reason := none
    service_time := some svc }

/-- The timestamp property asserted by the specification for completed
requests (spec §8, first bullet), stated over the embedded `Request`:
`finish > start > queue_entry ≥ arrival ≥ 0` and exact response time. -/
def claimed_strict_chain (r : Request) : Prop :=
  ∃ qe st fi, r.queue_entry_time = some qe ∧ r.start_time = some st ∧
    r.finish_time = some fi ∧ 0 ≤ r.arrival_time ∧ r.arrival_time ≤ qe ∧
    qe < st ∧ st < fi ∧ r.get_response_time = some (fi - r.arrival_time)

/-! ### Constructors (`CloudSystemModel.__init__`, `AutoScaler.__init__`) -/

/-- The constructor arguments of `CloudSystemModel`
(core.py lines 117-129). -/
structure ModelConfig where
  lambda_rate : ℚ
  service_time_min : ℚ
  service_time_max : ℚ
  net_delay_min : ℚ
  net_delay_max : ℚ
  max_requests_in_flight : Option Nat
  initial_nodes : Nat
  node_capacity : Nat
  max_wait_time : Option ℚ
deriving Repr

/-- The object produced by `CloudSystemModel.__init__`
(core.py lines 146-187). -/
structure CloudModelState where
  lambda_rate : ℚ
  service_time_min : ℚ
  service_time_max : ℚ
  net_delay_min : ℚ
  net_delay_max : ℚ
  max_requests_in_flight : Option Nat
  node_capacity : ℕ
  max_wait_time : Option ℚ
  queue_capacity : Option Nat
  node_count : Nat
  processed_requests : List Request
  rejected_requests : List Request
  is_running : Bool
  is_paused : Bool
deriving Repr

/-- Embeds the capacity validation of `simpy.Store.__init__`: the
constructor runs `if capacity <= 0: raise ValueError(...)`, so a numeric
capacity of at most 0 raises `ValueError`, and passing `capacity=None`
(which core.py line 157 does when no in-flight cap is configured) raises
a `TypeError` at the `None <= 0` comparison. -/
def simpy_store_init (capacity : Option Nat) : Except String Unit :=
  match capacity with
  | none =>
    Except.error
      "TypeError: <= not supported between instances of NoneType and int"
  | some k =>
    if k ≤ 0 then Except.error "ValueError: capacity must be > 0"
    else Except.ok ()

/-- Embeds the capacity validation of `simpy.Resource.__init__` (run once
per created `StorageNode`, core.py line 84): `capacity <= 0` raises
`ValueError`. -/
def simpy_resource_init (capacity : Nat) : Except String Unit :=
  if capacity ≤ 0 then Except.error "ValueError: capacity must be > 0"
  else Except.ok ()

/-- Embeds `CloudSystemModel.__init__` (core.py lines 117-187).  The body
assigns fields without validating them, then builds the queue as
`simpy.Store(env, capacity=queue_capacity)` with `queue_capacity` equal
to `max_requests_in_flight * 10` when a cap is given and `None`
otherwise (lines 156-158), and creates `initial_nodes` nodes, each
allocating a `simpy.Resource` of capacity `node_capacity`
(lines 178-179, 84).  The only failure paths are the simpy capacity
checks; no configuration value is validated by the model itself. -/
def cloud_model_init (c : ModelConfig) : Except String CloudModelState :=
  let queue_capacity := c.max_requests_in_flight.map (fun k => k * 10)
  match simpy_store_init queue_capacity with
  | Except.error e => Except.error e
  | Except.ok _ =>
    match (if 0 < c.initial_nodes then simpy_resource_init c.node_capacity
           else Except.ok ()) with
    | Except.error e => Except.error e
    | Except.ok _ =>
      Except.ok
        { lambda_rate := c.lambda_rate
          service_time_min := c.service_time_min
          service_time_max := c.service_time_max
          net_delay_min := c.net_delay_min
          net_delay_max := c.net_delay_max
          max_requests_in_flight := c.max_requests_in_flight
          node_capacity := c.node_capacity
          max_wait_time := c.max_wait_time
          queue_capacity := queue_capacity
          node_count := c.initial_nodes
          processed_requests := []
          rejected_requests := []
          is_running := false
          is_paused := false }

/-- The constructor arguments of `AutoScaler`
(autoscaler.py lines 22-33). -/
structure ScalerConfig where
  min_nodes : Nat
  max_nodes : Nat
  low_threshold : ℚ
  high_threshold : ℚ
  control_interval : ℚ
  scale_cooldown : ℚ
deriving Repr

/-- Embeds `AutoScaler.__init__` (autoscaler.py lines 22-76).  The body only
assigns fields and initialises the counters (lines 59-61); it contains no
validation and no raise, so the result is always `ok`. -/
def auto_scaler_init (c : ScalerConfig) : Except String AutoScaler :=
  Except.ok
    { min_nodes := c.min_nodes
      max_nodes := c.max_nodes
      low_threshold := c.low_threshold
      high_threshold := c.high_threshold
      control_interval := c.control_interval
      scale_cooldown := c.scale_cooldown
      last_scale_time := 0
      consecutive_low_intervals := 0
      required_consecutive_low := 2 }

/-! ### Generator admission (`request_generator`, core.py lines 318-347) -/

/-- The three ways the generator's admission section can end: the
fast-path rejection (lines 320-336), a successful enqueue (lines 339-342),
or the `Store.put` finding the queue at capacity (in simpy the put then
blocks; it does not raise). -/
inductive AdmissionOutcome where
  | fast_reject
  | enqueued
  | put_blocked
deriving DecidableEq, Repr

/-- The queue capacity chosen by `CloudSystemModel.__init__`
(core.py line 157): `None` when uncapped, else `max_requests_in_flight * 10`. -/
def queue_capacity_of (cap : Option Nat) : Option Nat :=
  cap.map (fun k => k * 10)

/-- Whether a `simpy.Store.put` on a store with capacity `queue_capacity`
and `queue_len` held items succeeds immediately (an unbounded store always
accepts; a bounded one accepts while strictly below capacity). -/
def store_put_ready (queue_capacity : Option Nat) (queue_len : Nat) : Bool :=
  match queue_capacity with
  | none => true
  | some k => decide (queue_len < k)

/-- The admission section of one `request_generator` iteration
(core.py lines 318-347): the fast-path check against
`queued + in-processing`, then the enqueue attempt. -/
def generator_admission (cap queue_capacity : Option Nat)
    (queue_len in_processing : Nat) : AdmissionOutcome :=
  match cap with
  | some c =>
    if c ≤ queue_len + in_processing then AdmissionOutcome.fast_reject
    else if store_put_ready queue_capacity queue_len then
      AdmissionOutcome.enqueued
    else AdmissionOutcome.put_blocked
  | none =>
    if store_put_ready queue_capacity queue_len then AdmissionOutcome.enqueued
    else AdmissionOutcome.put_blocked

/-! ## Claim theorems -/

/-- C6: `LoadBalancer.select_node` with node list `L` and cursor `c`
returns `none` (cursor untouched) when `L` filtered to active nodes is
empty, and otherwise returns the active node at index `c mod |active|`
with the cursor advanced to `(c + 1) mod |active|`; the cursor is the
balancer's entire state. -/
theorem select_node_round_robin (nodes : List StorageNode) (c : Nat) :
    ((nodes.filter (fun n => n.is_active)).length = 0 →
      select_node nodes c = (none, c)) ∧
    ∀ h : 0 < (nodes.filter (fun n => n.is_active)).length,
      select_node nodes c =
        (some ((nodes.filter (fun n => n.is_active)).get
            ⟨c % (nodes.filter (fun n => n.is_active)).length,
             Nat.mod_lt _ h⟩),
         (c + 1) % (nodes.filter (fun n => n.is_active)).length) := by
  constructor
  · intro h0
    by_cases hn : nodes.isEmpty <;> simp [select_node, hn, h0]
  · intro h
    have hne : ¬ nodes.isEmpty = true := by
      intro hab
      rw [List.isEmpty_iff] at hab
      simp [hab] at h
    have h0 : ¬ (nodes.filter (fun n => n.is_active)).length = 0 :=
      Nat.pos_iff_ne_zero.mp h
    simp [select_node, hne, h0]

/-- Witness for C6 on a concrete pool: nodes 0 (active), 1 (inactive),
2 (active); cursor 5 selects active index 5 mod 2 = 1, i.e. node 2, and
the cursor wraps to 0. -/
theorem select_node_round_robin_witness :
    select_node [⟨0, true⟩, ⟨1, false⟩, ⟨2, true⟩] 5 =
      (some ⟨2, true⟩, 0) := by
  have h := select_node_round_robin [⟨0, true⟩, ⟨1, false⟩, ⟨2, true⟩] 5
  have h2 := h.2 (by decide)
  simpa using h2

/-- C8 counterexample: the constructors do not validate the
configuration itself.  An `AutoScaler` with `min_nodes = 5 > 1 =
max_nodes` and a `CloudSystemModel` with a negative arrival rate (and
benign capacity parameters: cap 5, node capacity 1) are both accepted:
construction succeeds rather than raising. -/
theorem init_accepts_invalid_config :
    (auto_scaler_init
      { min_nodes := 5
        max_nodes := 1
        low_threshold := 2
        high_threshold := 10
        control_interval := 5
        scale_cooldown := 10 }).isOk = true ∧
    (5 : Nat) > 1 ∧
    (cloud_model_init
      { lambda_rate := -1
        service_time_min := 1/2
        service_time_max := 2
        net_delay_min := 0
        net_delay_max := 1/10
        max_requests_in_flight := some 5
        initial_nodes := 2
        node_capacity := 1
        max_wait_time := none }).isOk = true ∧
    (-1 : ℚ) < 0 := by
  exact ⟨rfl, by norm_num, rfl, by norm_num⟩

/-- Helper: exactly when `CloudSystemModel.__init__` succeeds.  The only
eager failures are simpy's capacity checks: the `Store` fails when the
derived queue capacity `10 * cap` is zero or when no cap is configured
(`capacity=None`), and the per-node `Resource` fails when
`node_capacity = 0` and at least one initial node is created. -/
theorem cloud_model_init_isOk (c : ModelConfig) :
    (cloud_model_init c).isOk = true ↔
      ((∃ k, c.max_requests_in_flight = some k ∧ 0 < k) ∧
        (0 < c.node_capacity ∨ c.initial_nodes = 0)) := by
  cases hmax : c.max_requests_in_flight with
  | none =>
    have hval : (cloud_model_init c).isOk = false := by
      simp [cloud_model_init, simpy_store_init, hmax, Except.isOk,
        Except.toBool]
    rw [hval]
    simp [hmax]
  | some k =>
    by_cases hk : k = 0
    · subst hk
      have hval : (cloud_model_init c).isOk = false := by
        simp [cloud_model_init, simpy_store_init, hmax, Except.isOk,
          Except.toBool]
      rw [hval]
      simp [hmax]
    · have hk10 : ¬ (k * 10 ≤ 0) := by omega
      by_cases hin : 0 < c.initial_nodes
      · by_cases hnc : c.node_capacity ≤ 0
        · have hval : (cloud_model_init c).isOk = false := by
            simp [cloud_model_init, simpy_store_init, simpy_resource_init,
              hmax, hk10, hin, hnc, Except.isOk, Except.toBool]
          rw [hval]
          simp [hmax]
          omega
        · have hval : (cloud_model_init c).isOk = true := by
            simp [cloud_model_init, simpy_store_init, simpy_resource_init,
              hmax, hk10, hin, hnc, Except.isOk, Except.toBool]
          rw [hval]
          simp [hmax]
          omega
      · have hval : (cloud_model_init c).isOk = true := by
          simp [cloud_model_init, simpy_store_init, simpy_resource_init,
            hmax, hk10, hin, Except.isOk, Except.toBool]
        rw [hval]
        simp [hmax]
        omega

/-- C8 amended: neither constructor validates the configuration itself.
`AutoScaler.__init__` succeeds for every configuration (so
`min_nodes > max_nodes` is accepted), and `CloudSystemModel.__init__`
succeeds exactly when simpy's capacity checks pass — a positive in-flight
cap (uncapped configurations fail because `Store` rejects a `None`
capacity, and cap 0 makes the derived capacity `0`), and a positive
`node_capacity` unless no initial node is created.  Success is
independent of `lambda_rate`, so a negative arrival rate is never
rejected eagerly. -/
theorem init_validation_characterization (mc : ModelConfig)
    (sc : ScalerConfig) :
    (auto_scaler_init sc).isOk = true ∧
    ((cloud_model_init mc).isOk = true ↔
      ((∃ k, mc.max_requests_in_flight = some k ∧ 0 < k) ∧
        (0 < mc.node_capacity ∨ mc.initial_nodes = 0))) ∧
    (cloud_model_init mc).isOk =
      (cloud_model_init { mc with lambda_rate := -1 }).isOk := by
  refine ⟨rfl, cloud_model_init_isOk mc, ?_⟩
  have h1 := cloud_model_init_isOk mc
  have h2 := cloud_model_init_isOk { mc with lambda_rate := -1 }
  cases hb1 : (cloud_model_init mc).isOk <;>
    cases hb2 : (cloud_model_init { mc with lambda_rate := -1 }).isOk
  · rfl
  · rw [hb1] at h1
    rw [hb2] at h2
    exact absurd (h1.mpr (h2.mp rfl)) (by simp)
  · rw [hb1] at h1
    rw [hb2] at h2
    exact absurd (h2.mpr (h1.mp rfl)) (by simp)
  · rfl

/-- Witness for C8's amended statement: an autoscaler configuration is
accepted, and a model configuration with cap 2 and node capacity 1
constructs successfully. -/
theorem init_validation_characterization_witness :
    (auto_scaler_init
      { min_nodes := 1
        max_nodes := 10
        low_threshold := 2
        high_threshold := 10
        control_interval := 5
        scale_cooldown := 10 }).isOk = true ∧
    (cloud_model_init
      { lambda_rate := 1
        service_time_min := 1/2
        service_time_max := 2
        net_delay_min := 0
        net_delay_max := 1/10
        max_requests_in_flight := some 2
        initial_nodes := 2
        node_capacity := 1
        max_wait_time := none }).isOk = true := by
  have h := init_validation_characterization
    { lambda_rate := 1
      service_time_min := 1/2
      service_time_max := 2
      net_delay_min := 0
      net_delay_max := 1/10
      max_requests_in_flight := some 2
      initial_nodes := 2
      node_capacity := 1
      max_wait_time := none }
    { min_nodes := 1
      max_nodes := 10
      low_threshold := 2
      high_threshold := 10
      control_interval := 5
      scale_cooldown := 10 }
  exact ⟨h.1, h.2.1.mpr ⟨⟨2, rfl, by norm_num⟩, Or.inl (by norm_num)⟩⟩

/-- C10: with the queue capacity chosen by the constructor
(`max_requests_in_flight * 10` when capped, unbounded otherwise), the
enqueue in `request_generator` always succeeds once the fast-path check
has passed — the `put` never even blocks, so the `except` branch that
would reject with `queue_full` is unreachable, and every `queue_full`
rejection comes from the fast-path check alone. -/
theorem enqueue_never_blocks (cap : Option Nat) (queue_len in_processing : Nat) :
    generator_admission cap (queue_capacity_of cap) queue_len in_processing ≠
      AdmissionOutcome.put_blocked ∧
    (generator_admission cap (queue_capacity_of cap) queue_len in_processing =
        AdmissionOutcome.fast_reject ↔
      ∃ c, cap = some c ∧ c ≤ queue_len + in_processing) := by
  cases cap with
  | none =>
    simp [generator_admission, queue_capacity_of, store_put_ready]
  | some c =>
    by_cases hle : c ≤ queue_len + in_processing
    · simp [generator_admission, queue_capacity_of, hle]
    · have hq : queue_len < c * 10 := by
        have h1 : queue_len < c :=
          lt_of_le_of_lt (Nat.le_add_right _ _) (Nat.lt_of_not_le hle)
        exact lt_of_lt_of_le h1
          (le_mul_of_one_le_right (Nat.zero_le c) (by norm_num))
      simp [generator_admission, queue_capacity_of, store_put_ready, hle, hq]

/-- Witness for C10: with a cap of 4, queue length 2 and 1 in processing,
the fast path passes and the enqueue succeeds; with queue length 3 the
fast path rejects. -/
theorem enqueue_never_blocks_witness :
    generator_admission (some 4) (queue_capacity_of (some 4)) 2 1 ≠
      AdmissionOutcome.put_blocked ∧
    (generator_admission (some 4) (queue_capacity_of (some 4)) 3 1 =
        AdmissionOutcome.fast_reject ↔
      ∃ c, (some 4 : Option Nat) = some c ∧ c ≤ 3 + 1) :=
  ⟨(enqueue_never_blocks (some 4) 2 1).1, (enqueue_never_blocks (some 4) 3 1).2⟩

/-- C2 counterexample: on the two-sample series `[(0, 0), (1, 2)]` the
collector's loop (left-endpoint rectangles) returns `0` while the
autoscaler's interval computation (trapezoids) returns `1`, so the two
functions are not the identical method and do not yield equal values on
the same series. -/
theorem avg_queue_methods_differ :
    collector_avg_queue [(0, 0), (1, 2)] = 0 ∧
    scaler_interval_avg_queue [(0, 0), (1, 2)] 1 2 = 1 ∧
    collector_avg_queue [(0, 0), (1, 2)] ≠
      scaler_interval_avg_queue [(0, 0), (1, 2)] 1 2 := by
  have h1 : collector_avg_queue [(0, 0), (1, 2)] = 0 := by
    norm_num [collector_avg_queue]
  have h2 : scaler_interval_avg_queue [(0, 0), (1, 2)] 1 2 = 1 := by
    norm_num [scaler_interval_avg_queue, scaler_interval_samples,
      scaler_trap_avg]
  refine ⟨h1, h2, ?_⟩
  rw [h1, h2]
  norm_num

/-- Helper: inside the averaging loops, the accumulated `dt`s telescope to
`last time - first time`. -/
theorem zip_time_sum (p : ℚ × ℚ) (l : List (ℚ × ℚ)) :
    (((p :: l).zip l).map (fun x : (ℚ × ℚ) × ℚ × ℚ => x.2.1 - x.1.1)).sum =
      ((p :: l).getLast (List.cons_ne_nil p l)).1 - p.1 := by
  induction l generalizing p with
  | nil => simp
  | cons q l2 ih =>
    simp only [List.zip_cons_cons, List.map_cons, List.sum_cons]
    rw [ih q, List.getLast_cons (List.cons_ne_nil q l2)]
    ring

/-- Helper: the collector loop's area accumulator computes the
left-endpoint rectangle-rule integral. -/
theorem zip_area_sum (p : ℚ × ℚ) (l : List (ℚ × ℚ)) :
    (((p :: l).zip l).map
        (fun x : (ℚ × ℚ) × ℚ × ℚ => x.1.2 * (x.2.1 - x.1.1))).sum =
      left_rule_integral (p :: l) := by
  induction l generalizing p with
  | nil =>
    obtain ⟨a, b⟩ := p
    simp [left_rule_integral]
  | cons q l2 ih =>
    obtain ⟨t1, q1⟩ := p
    obtain ⟨t2, q2⟩ := q
    simp only [List.zip_cons_cons, List.map_cons, List.sum_cons,
      left_rule_integral]
    rw [ih (t2, q2)]

/-- Helper: with strictly increasing sample times every `dt > 0` guard in
the autoscaler loop passes, and the `dt`s again telescope. -/
theorem zip_trap_time_sum (p : ℚ × ℚ) (l : List (ℚ × ℚ))
    (h : List.Chain' (fun x y : ℚ × ℚ => x.1 < y.1) (p :: l)) :
    (((p :: l).zip l).map (fun x : (ℚ × ℚ) × ℚ × ℚ =>
        if 0 < x.2.1 - x.1.1 then x.2.1 - x.1.1 else 0)).sum =
      ((p :: l).getLast (List.cons_ne_nil p l)).1 - p.1 := by
  induction l generalizing p with
  | nil => simp
  | cons q l2 ih =>
    have hpq : p.1 < q.1 := (List.chain'_cons.mp h).1
    have hdt : 0 < q.1 - p.1 := sub_pos.mpr hpq
    simp only [List.zip_cons_cons, List.map_cons, List.sum_cons, if_pos hdt]
    rw [ih q (List.chain'_cons.mp h).2,
      List.getLast_cons (List.cons_ne_nil q l2)]
    ring

/-- Helper: with strictly increasing sample times the autoscaler loop's
area accumulator computes the trapezoidal integral. -/
theorem zip_trap_area_sum (p : ℚ × ℚ) (l : List (ℚ × ℚ))
    (h : List.Chain' (fun x y : ℚ × ℚ => x.1 < y.1) (p :: l)) :
    (((p :: l).zip l).map (fun x : (ℚ × ℚ) × ℚ × ℚ =>
        if 0 < x.2.1 - x.1.1 then ((x.1.2 + x.2.2) / 2) * (x.2.1 - x.1.1)
        else 0)).sum =
      trapezoid_integral (p :: l) := by
  induction l generalizing p with
  | nil =>
    obtain ⟨a, b⟩ := p
    simp [trapezoid_integral]
  | cons q l2 ih =>
    have hpq : p.1 < q.1 := (List.chain'_cons.mp h).1
    have hdt : 0 < q.1 - p.1 := sub_pos.mpr hpq
    have hrec := ih q (List.chain'_cons.mp h).2
    obtain ⟨t1, q1⟩ := p
    obtain ⟨t2, q2⟩ := q
    simp only [List.zip_cons_cons, List.map_cons, List.sum_cons,
      if_pos hdt, trapezoid_integral]
    rw [hrec]

/-- Helper: with strictly increasing sample times, the first time is
strictly below the last. -/
theorem chain_head_lt_getLast (p : ℚ × ℚ) (l : List (ℚ × ℚ)) (hne : l ≠ [])
    (h : List.Chain' (fun x y : ℚ × ℚ => x.1 < y.1) (p :: l)) :
    p.1 < ((p :: l).getLast (List.cons_ne_nil p l)).1 := by
  induction l generalizing p with
  | nil => exact absurd rfl hne
  | cons q l2 ih =>
    have hpq : p.1 < q.1 := (List.chain'_cons.mp h).1
    rw [List.getLast_cons (List.cons_ne_nil q l2)]
    cases l2 with
    | nil => simpa using hpq
    | cons r l3 =>
      exact hpq.trans (ih q (by simp) (List.chain'_cons.mp h).2)

/-- C2 amended: on a series of at least two samples with strictly
increasing times, `get_aggregated_metrics` returns the *left-endpoint
rectangle-rule* integral of the `(time, queue_length)` series divided by
total elapsed time (and falls back to the arithmetic mean below two
samples), whereas `_calculate_interval_metrics` uses the trapezoidal
rule; the two methods are distinct and generally disagree. -/
theorem avg_queue_method_characterization (t0 q0 cq : ℚ)
    (rest : List (ℚ × ℚ)) (hne : rest ≠ [])
    (hchain : List.Chain' (fun x y : ℚ × ℚ => x.1 < y.1) ((t0, q0) :: rest)) :
    collector_avg_queue ((t0, q0) :: rest) =
      left_rule_integral ((t0, q0) :: rest) /
        ((((t0, q0) :: rest).getLast (List.cons_ne_nil _ _)).1 - t0) ∧
    scaler_trap_avg ((t0, q0) :: rest) cq =
      trapezoid_integral ((t0, q0) :: rest) /
        ((((t0, q0) :: rest).getLast (List.cons_ne_nil _ _)).1 - t0) ∧
    collector_avg_queue [(t0, q0)] = q0 := by
  have hlen : 1 < ((t0, q0) :: rest).length := by
    cases rest with
    | nil => exact absurd rfl hne
    | cons a l => simp
  have hpos : 0 <
      (((t0, q0) :: rest).getLast (List.cons_ne_nil _ _)).1 - t0 :=
    sub_pos.mpr (chain_head_lt_getLast (t0, q0) rest hne hchain)
  refine ⟨?_, ?_, ?_⟩
  · simp only [collector_avg_queue, List.tail_cons]
    rw [if_pos hlen, zip_time_sum (t0, q0) rest, zip_area_sum (t0, q0) rest,
      if_pos hpos]
  · simp only [scaler_trap_avg, List.tail_cons]
    rw [if_pos hlen, zip_trap_time_sum (t0, q0) rest hchain,
      zip_trap_area_sum (t0, q0) rest hchain, if_pos hpos]
  · simp [collector_avg_queue]

/-- Witness for C2's amended statement on the constant series
`[(0, 3), (1, 3)]` (both rules then agree on the constant value 3). -/
theorem avg_queue_method_characterization_witness :
    collector_avg_queue [(0, 3), (1, 3)] = 3 ∧
    scaler_trap_avg [(0, 3), (1, 3)] 0 = 3 := by
  have h := avg_queue_method_characterization 0 3 0 [(1, 3)]
    (by simp) (by norm_num [List.chain'_cons])
  refine ⟨?_, ?_⟩
  · rw [h.1]; norm_num [left_rule_integral, List.getLast]
  · rw [h.2.1]; norm_num [trapezoid_integral, List.getLast]

/-- C9: `should_scale_down` is not a pure query.  A call whose full
condition holds increments the persistent counter before testing it, any
other call resets the counter to 0, and from the fresh state (counter 0,
required streak 2) two successive calls on the same qualifying metrics
and otherwise unchanged state return `False` then `True`. -/
theorem should_scale_down_stateful (s : AutoScaler) (now : ℚ)
    (active_count : Nat) (m : ScalerMetrics) :
    (down_condition s now active_count m →
      should_scale_down s now active_count m =
        (decide (s.required_consecutive_low ≤ s.consecutive_low_intervals + 1),
         { s with consecutive_low_intervals :=
            s.consecutive_low_intervals + 1 })) ∧
    (¬ down_condition s now active_count m →
      should_scale_down s now active_count m =
        (false, { s with consecutive_low_intervals := 0 })) ∧
    (s.consecutive_low_intervals = 0 → s.required_consecutive_low = 2 →
      down_condition s now active_count m →
      (should_scale_down s now active_count m).1 = false ∧
      (should_scale_down (should_scale_down s now active_count m).2 now
          active_count m).1 = true) := by
  refine ⟨?_, ?_, ?_⟩
  · intro hc
    simp only [should_scale_down]
    rw [if_pos hc]
  · intro hc
    simp only [should_scale_down]
    rw [if_neg hc]
  · intro h0 h2 hc
    have hfst : should_scale_down s now active_count m =
        (decide (s.required_consecutive_low ≤ s.consecutive_low_intervals + 1),
         { s with consecutive_low_intervals :=
            s.consecutive_low_intervals + 1 }) := by
      simp only [should_scale_down]
      rw [if_pos hc]
    have hc1 : down_condition
        { s with consecutive_low_intervals := s.consecutive_low_intervals + 1 }
        now active_count m := hc
    constructor
    · rw [hfst]
      simp [h0, h2]
    · rw [hfst]
      simp only [should_scale_down]
      rw [if_pos hc1]
      simp [h0, h2]

/-- Witness for C9: from the fresh default state (counter 0, streak 2),
with metrics `(1, 1)` below `low_threshold = 2`, 2 active nodes above
`min_nodes = 1` and cooldown elapsed, the first call returns `False` and
the second returns `True`. -/
theorem should_scale_down_stateful_witness :
    (should_scale_down
      { min_nodes := 1
        max_nodes := 10
        low_threshold := 2
        high_threshold := 10
        control_interval := 5
        scale_cooldown := 10
        last_scale_time := 0
        consecutive_low_intervals := 0
        required_consecutive_low := 2 } 10 2 ⟨1, 1⟩).1 = false ∧
    (should_scale_down (should_scale_down
      { min_nodes := 1
        max_nodes := 10
        low_threshold := 2
        high_threshold := 10
        control_interval := 5
        scale_cooldown := 10
        last_scale_time := 0
        consecutive_low_intervals := 0
        required_consecutive_low := 2 } 10 2 ⟨1, 1⟩).2 10 2 ⟨1, 1⟩).1 = true := by
  exact (should_scale_down_stateful
    { min_nodes := 1
      max_nodes := 10
      low_threshold := 2
      high_threshold := 10
      control_interval := 5
      scale_cooldown := 10
      last_scale_time := 0
      consecutive_low_intervals := 0
      required_consecutive_low := 2 } 10 2 ⟨1, 1⟩).2.2 rfl rfl
    (by norm_num [down_condition])

/-- Helper: from a state whose consecutive-low counter is 0 and whose
required streak is 2, a control tick never performs a scale-down. -/
theorem control_step_no_down_of_counter_zero (s : AutoScaler) (a : Nat)
    (t : ℚ) (m : ScalerMetrics) (h0 : s.consecutive_low_intervals = 0)
    (h2 : s.required_consecutive_low = 2) :
    (control_step s a t m).2.2 ≠ some ScalingAction.down := by
  unfold control_step
  by_cases hup : should_scale_up s t a m = true
  · simp only [hup, if_true]
    split <;> simp
  · have hd : (should_scale_down s t a m).1 = false := by
      by_cases hc : down_condition s t a m
      · simp only [should_scale_down]
        rw [if_pos hc]
        simp [h0, h2]
      · simp only [should_scale_down]
        rw [if_neg hc]
    simp [hup, hd]

/-- Helper: a control tick whose metrics do not satisfy the scale-down
condition never performs a scale-down and leaves the consecutive-low
counter at 0 (either `should_scale_down` resets it, or a scale-up fires
and resets it). -/
theorem control_step_reset_of_not_down_condition (s : AutoScaler) (a : Nat)
    (t : ℚ) (m : ScalerMetrics) (hc : ¬ down_condition s t a m) :
    (control_step s a t m).2.2 ≠ some ScalingAction.down ∧
    (control_step s a t m).1.consecutive_low_intervals = 0 := by
  unfold control_step
  by_cases hup : should_scale_up s t a m = true
  · have hup' : up_condition s t a m := of_decide_eq_true hup
    simp [hup, scale_up, hup'.2.1]
  · have hd : should_scale_down s t a m =
        (false, { s with consecutive_low_intervals := 0 }) := by
      simp only [should_scale_down]
      rw [if_neg hc]
    simp [hup, hd]

/-- C3: a single qualifying low-load interval never triggers a
scale-down.  Starting from a controller state with consecutive-low
counter 0 and required streak 2, the first control tick performs no
scale-down regardless of its metrics, and if the following tick's metrics
fail the scale-down condition, that tick also performs no scale-down and
leaves the counter reset to 0. -/
theorem single_low_interval_no_scale_down (s : AutoScaler) (a : Nat)
    (t1 t2 : ℚ) (m1 m2 : ScalerMetrics)
    (h0 : s.consecutive_low_intervals = 0)
    (h2 : s.required_consecutive_low = 2) :
    (control_step s a t1 m1).2.2 ≠ some ScalingAction.down ∧
    (¬ down_condition (control_step s a t1 m1).1 t2
        (control_step s a t1 m1).2.1 m2 →
      (control_step (control_step s a t1 m1).1 (control_step s a t1 m1).2.1
          t2 m2).2.2 ≠ some ScalingAction.down ∧
      (control_step (control_step s a t1 m1).1 (control_step s a t1 m1).2.1
          t2 m2).1.consecutive_low_intervals = 0) := by
  refine ⟨control_step_no_down_of_counter_zero s a t1 m1 h0 h2, ?_⟩
  intro hc
  exact control_step_reset_of_not_down_condition _ _ t2 m2 hc

/-- Witness for C3: one qualifying low interval (metrics `(1, 1)`, all
guards pass) followed by one non-qualifying interval (metrics
`(20, 20)`): neither tick scales down. -/
theorem single_low_interval_no_scale_down_witness :
    (control_step
      { min_nodes := 1
        max_nodes := 10
        low_threshold := 2
        high_threshold := 10
        control_interval := 5
        scale_cooldown := 10
        last_scale_time := 0
        consecutive_low_intervals := 0
        required_consecutive_low := 2 } 2 10 ⟨1, 1⟩).2.2 ≠
      some ScalingAction.down ∧
    (control_step
        (control_step
          { min_nodes := 1
            max_nodes := 10
            low_threshold := 2
            high_threshold := 10
            control_interval := 5
            scale_cooldown := 10
            last_scale_time := 0
            consecutive_low_intervals := 0
            required_consecutive_low := 2 } 2 10 ⟨1, 1⟩).1
        (control_step
          { min_nodes := 1
            max_nodes := 10
            low_threshold := 2
            high_threshold := 10
            control_interval := 5
            scale_cooldown := 10
            last_scale_time := 0
            consecutive_low_intervals := 0
            required_consecutive_low := 2 } 2 10 ⟨1, 1⟩).2.1 15
        ⟨20, 20⟩).2.2 ≠ some ScalingAction.down := by
  have h := single_low_interval_no_scale_down
    { min_nodes := 1
      max_nodes := 10
      low_threshold := 2
      high_threshold := 10
      control_interval := 5
      scale_cooldown := 10
      last_scale_time := 0
      consecutive_low_intervals := 0
      required_consecutive_low := 2 } 2 10 15 ⟨1, 1⟩ ⟨20, 20⟩ rfl rfl
  have hnc : ¬ down_condition
      (control_step
        { min_nodes := 1
          max_nodes := 10
          low_threshold := 2
          high_threshold := 10
          control_interval := 5
          scale_cooldown := 10
          last_scale_time := 0
          consecutive_low_intervals := 0
          required_consecutive_low := 2 } 2 10 ⟨1, 1⟩).1 15
      (control_step
        { min_nodes := 1
          max_nodes := 10
          low_threshold := 2
          high_threshold := 10
          control_interval := 5
          scale_cooldown := 10
          last_scale_time := 0
          consecutive_low_intervals := 0
          required_consecutive_low := 2 } 2 10 ⟨1, 1⟩).2.1 ⟨20, 20⟩ := by
    norm_num [control_step, should_scale_up, should_scale_down,
      up_condition, down_condition, scale_up, scale_down]
  exact ⟨h.1, (h.2 hnc).1⟩

/-- Helper: a control tick never changes the configuration fields of the
scaler state. -/
theorem control_step_preserves_fields (s : AutoScaler) (a : Nat) (t : ℚ)
    (m : ScalerMetrics) :
    (control_step s a t m).1.scale_cooldown = s.scale_cooldown ∧
    (control_step s a t m).1.min_nodes = s.min_nodes ∧
    (control_step s a t m).1.max_nodes = s.max_nodes ∧
    (control_step s a t m).1.required_consecutive_low =
      s.required_consecutive_low := by
  by_cases hup : should_scale_up s t a m = true
  · by_cases hlt : a < s.max_nodes <;>
      simp [control_step, hup, scale_up, hlt]
  · by_cases hc : down_condition s t a m
    · have hd : should_scale_down s t a m =
          (decide (s.required_consecutive_low ≤
            s.consecutive_low_intervals + 1),
           { s with consecutive_low_intervals :=
              s.consecutive_low_intervals + 1 }) := by
        simp only [should_scale_down]
        rw [if_pos hc]
      by_cases hreq : s.required_consecutive_low ≤
          s.consecutive_low_intervals + 1
      · by_cases hmn : s.min_nodes < a <;>
          simp [control_step, hup, hd, hreq, scale_down, hmn]
      · simp [control_step, hup, hd, hreq]
    · have hd : should_scale_down s t a m =
          (false, { s with consecutive_low_intervals := 0 }) := by
        simp only [should_scale_down]
        rw [if_neg hc]
      simp [control_step, hup, hd]

/-- Helper: a control tick either performs no action and keeps
`last_scale_time`, or performs an action at a time `t` with
`scale_cooldown ≤ t - last_scale_time` and records `last_scale_time = t`. -/
theorem control_step_cases (s : AutoScaler) (a : Nat) (t : ℚ)
    (m : ScalerMetrics) :
    ((control_step s a t m).2.2 = none ∧
      (control_step s a t m).1.last_scale_time = s.last_scale_time) ∨
    ((control_step s a t m).2.2 ≠ none ∧
      (control_step s a t m).1.last_scale_time = t ∧
      s.scale_cooldown ≤ t - s.last_scale_time) := by
  by_cases hup : should_scale_up s t a m = true
  · have hup' : up_condition s t a m := of_decide_eq_true hup
    refine Or.inr ⟨?_, ?_, hup'.2.2⟩ <;>
      simp [control_step, hup, scale_up, hup'.2.1]
  · by_cases hc : down_condition s t a m
    · have hd : should_scale_down s t a m =
          (decide (s.required_consecutive_low ≤
            s.consecutive_low_intervals + 1),
           { s with consecutive_low_intervals :=
              s.consecutive_low_intervals + 1 }) := by
        simp only [should_scale_down]
        rw [if_pos hc]
      by_cases hreq : s.required_consecutive_low ≤
          s.consecutive_low_intervals + 1
      · refine Or.inr ⟨?_, ?_, hc.2.2⟩ <;>
          simp [control_step, hup, hd, hreq, scale_down, hc.2.1]
      · refine Or.inl ⟨?_, ?_⟩ <;>
          simp [control_step, hup, hd, hreq]
    · have hd : should_scale_down s t a m =
          (false, { s with consecutive_low_intervals := 0 }) := by
        simp only [should_scale_down]
        rw [if_neg hc]
      refine Or.inl ⟨?_, ?_⟩ <;> simp [control_step, hup, hd]

/-- Helper: prefixing the current `last_scale_time` to the action times of
a control run yields a chain in which consecutive entries are at least
`scale_cooldown` apart. -/
theorem run_control_cooldown_chain (tr : List (ℚ × ScalerMetrics)) :
    ∀ (s : AutoScaler) (a : Nat),
      List.Chain' (fun x y : ℚ => s.scale_cooldown ≤ y - x)
        (s.last_scale_time :: (run_control s a tr).2.2) := by
  induction tr with
  | nil =>
    intro s a
    simp [run_control]
  | cons p rest ih =>
    intro s a
    obtain ⟨t, m⟩ := p
    have hcool := (control_step_preserves_fields s a t m).1
    have hrec := ih (control_step s a t m).1 (control_step s a t m).2.1
    simp only [hcool] at hrec
    rcases control_step_cases s a t m with ⟨hnone, hlast⟩ | ⟨hsome, hlast, hgap⟩
    · rw [hlast] at hrec
      simp only [run_control, hnone, List.nil_append]
      exact hrec
    · obtain ⟨act, hact⟩ := Option.ne_none_iff_exists'.mp hsome
      rw [hlast] at hrec
      simp only [run_control, hact, List.singleton_append]
      exact List.chain'_cons.mpr ⟨hgap, hrec⟩

/-- C4: along any run of the controller, the virtual times of consecutive
executed scaling actions are at least `scale_cooldown` apart: each action
requires `now - last_scale_time ≥ scale_cooldown` and records
`last_scale_time = now`. -/
theorem scaling_actions_respect_cooldown (s : AutoScaler) (a : Nat)
    (tr : List (ℚ × ScalerMetrics)) :
    List.Chain' (fun x y : ℚ => s.scale_cooldown ≤ y - x)
      (run_control s a tr).2.2 :=
  (run_control_cooldown_chain tr s a).tail

/-- Helper: a single control tick keeps the active node count within
`[min_nodes, max_nodes]` and changes it by at most one. -/
theorem control_step_active_bounds (s : AutoScaler) (a : Nat) (t : ℚ)
    (m : ScalerMetrics) (hmin : s.min_nodes ≤ a) (hmax : a ≤ s.max_nodes) :
    (s.min_nodes ≤ (control_step s a t m).2.1 ∧
      (control_step s a t m).2.1 ≤ s.max_nodes) ∧
    ((control_step s a t m).2.1 ≤ a + 1 ∧ a ≤ (control_step s a t m).2.1 + 1) := by
  by_cases hup : should_scale_up s t a m = true
  · have hup' : up_condition s t a m := of_decide_eq_true hup
    have ha : (control_step s a t m).2.1 = a + 1 := by
      simp [control_step, hup, scale_up, hup'.2.1]
    rw [ha]
    have := hup'.2.1
    omega
  · by_cases hc : down_condition s t a m
    · have hd : should_scale_down s t a m =
          (decide (s.required_consecutive_low ≤
            s.consecutive_low_intervals + 1),
           { s with consecutive_low_intervals :=
              s.consecutive_low_intervals + 1 }) := by
        simp only [should_scale_down]
        rw [if_pos hc]
      by_cases hreq : s.required_consecutive_low ≤
          s.consecutive_low_intervals + 1
      · have ha : (control_step s a t m).2.1 = a - 1 := by
          simp [control_step, hup, hd, hreq, scale_down, hc.2.1]
        rw [ha]
        have := hc.2.1
        omega
      · have ha : (control_step s a t m).2.1 = a := by
          simp [control_step, hup, hd, hreq]
        rw [ha]
        omega
    · have hd : should_scale_down s t a m =
          (false, { s with consecutive_low_intervals := 0 }) := by
        simp only [should_scale_down]
        rw [if_neg hc]
      have ha : (control_step s a t m).2.1 = a := by
        simp [control_step, hup, hd]
      rw [ha]
      omega

/-- Helper: the in-range invariant on the active node count is preserved
along any control run. -/
theorem run_control_active_bounds (tr : List (ℚ × ScalerMetrics)) :
    ∀ (s : AutoScaler) (a : Nat), s.min_nodes ≤ a → a ≤ s.max_nodes →
      s.min_nodes ≤ (run_control s a tr).2.1 ∧
      (run_control s a tr).2.1 ≤ s.max_nodes := by
  induction tr with
  | nil =>
    intro s a hmin hmax
    exact ⟨hmin, hmax⟩
  | cons p rest ih =>
    intro s a hmin hmax
    obtain ⟨t, m⟩ := p
    have hstep := control_step_active_bounds s a t m hmin hmax
    have hf := control_step_preserves_fields s a t m
    have hrec := ih (control_step s a t m).1 (control_step s a t m).2.1
      (by rw [hf.2.1]; exact hstep.1.1) (by rw [hf.2.2.1]; exact hstep.1.2)
    rw [hf.2.1, hf.2.2.1] at hrec
    simpa only [run_control] using hrec

/-- C5: assuming the active node count starts in `[min_nodes, max_nodes]`
and only the controller mutates the pool, it stays in that range after
every controller decision; moreover `scale_up` adds a node exactly when
the count is strictly below `max_nodes`, `scale_down` removes one exactly
when strictly above `min_nodes`, and a decision changes the count by at
most one. -/
theorem active_node_count_bounded (s : AutoScaler) (a : Nat) (t : ℚ)
    (m : ScalerMetrics) (tr : List (ℚ × ScalerMetrics))
    (hmin : s.min_nodes ≤ a) (hmax : a ≤ s.max_nodes) :
    ((scale_up s t a).1 = true ↔ a < s.max_nodes) ∧
    ((scale_down s t a).1 = true ↔ s.min_nodes < a) ∧
    (s.min_nodes ≤ (control_step s a t m).2.1 ∧
      (control_step s a t m).2.1 ≤ s.max_nodes) ∧
    ((control_step s a t m).2.1 ≤ a + 1 ∧ a ≤ (control_step s a t m).2.1 + 1) ∧
    (s.min_nodes ≤ (run_control s a tr).2.1 ∧
      (run_control s a tr).2.1 ≤ s.max_nodes) := by
  have h1 := control_step_active_bounds s a t m hmin hmax
  refine ⟨?_, ?_, h1.1, h1.2, run_control_active_bounds tr s a hmin hmax⟩
  · unfold scale_up
    split <;> simp_all
  · unfold scale_down
    split <;> simp_all

/-- Witness for C5: with `min_nodes = 1`, `max_nodes = 10` and two active
nodes, the count after a low-load tick stays within `[1, 10]`. -/
theorem active_node_count_bounded_witness :
    1 ≤ (control_step
      { min_nodes := 1
        max_nodes := 10
        low_threshold := 2
        high_threshold := 10
        control_interval := 5
        scale_cooldown := 10
        last_scale_time := 0
        consecutive_low_intervals := 0
        required_consecutive_low := 2 } 2 10 ⟨1, 1⟩).2.1 ∧
    (control_step
      { min_nodes := 1
        max_nodes := 10
        low_threshold := 2
        high_threshold := 10
        control_interval := 5
        scale_cooldown := 10
        last_scale_time := 0
        consecutive_low_intervals := 0
        required_consecutive_low := 2 } 2 10 ⟨1, 1⟩).2.1 ≤ 10 := by
  have h := active_node_count_bounded
    { min_nodes := 1
      max_nodes := 10
      low_threshold := 2
      high_threshold := 10
      control_interval := 5
      scale_cooldown := 10
      last_scale_time := 0
      consecutive_low_intervals := 0
      required_consecutive_low := 2 } 2 10 ⟨1, 1⟩ [] (by decide) (by decide)
  exact h.2.2.1

/-- Helper: removing index `k` and re-prepending the removed element is a
permutation of the original list. -/
theorem get_cons_eraseIdx_perm {α : Type} (l : List α) (k : Nat)
    (h : k < l.length) :
    List.Perm (l.get ⟨k, h⟩ :: l.eraseIdx k) l := by
  induction l generalizing k with
  | nil => simp at h
  | cons a as ih =>
    cases k with
    | zero => simp
    | succ j =>
      have hj : j < as.length := by simpa using h
      simp only [List.get_cons_succ, List.eraseIdx_cons_succ]
      exact (List.Perm.swap a (as.get ⟨j, hj⟩) _).trans
        (List.Perm.cons a (ih j hj))

/-- Helper: the fast-path rejection of `request_generator` preserves the
bookkeeping invariant (the fresh request goes straight to the rejected
collection). -/
theorem sysInv_generate_reject (s : SysState) (h : SysInv s) (r : Request)
    (hid : r.request_id = s.next_request_id)
    (hrej : r.rejected = true) (hfin : r.finish_time = none) :
    SysInv { s with
      next_request_id := s.next_request_id + 1
      rejected_requests := s.rejected_requests ++ [r] } := by
  have hperm : List.Perm
      (idsOf ({ s with
        next_request_id := s.next_request_id + 1
        rejected_requests := s.rejected_requests ++ [r] } :
          SysState).allRequests)
      (idsOf s.allRequests ++ [r.request_id]) := by
    simp only [SysState.allRequests, idsOf, List.map_append, List.map_cons,
      List.map_nil]
    rw [← Multiset.coe_eq_coe]
    simp only [← Multiset.coe_add]
    abel
  have hnotin : r.request_id ∉ idsOf s.allRequests := by
    rw [hid]
    intro hmem
    exact absurd (h.ids_lt _ hmem) (lt_irrefl _)
  refine ⟨?_, ?_, ?_, ?_, ?_, ?_, ?_⟩
  · refine hperm.symm.nodup ?_
    rw [List.nodup_append]
    refine ⟨h.nodup, List.nodup_singleton _, ?_⟩
    intro x hx hx2
    rw [List.mem_singleton] at hx2
    subst hx2
    exact hnotin hx
  · intro n hn
    have hn2 := hperm.subset hn
    show n < s.next_request_id + 1
    rcases List.mem_append.mp hn2 with h1 | h1
    · exact Nat.lt_succ_of_lt (h.ids_lt n h1)
    · rw [List.mem_singleton] at h1
      subst h1
      rw [hid]
      exact Nat.lt_succ_self _
  · show ({ s with
        next_request_id := s.next_request_id + 1
        rejected_requests := s.rejected_requests ++ [r] } :
          SysState).allRequests.length = s.next_request_id + 1
    have hl := hperm.length_eq
    simp only [idsOf, List.length_map, List.length_append,
      List.length_singleton] at hl
    rw [hl, h.total]
  · exact h.proc_ok
  · intro x hx
    rcases List.mem_append.mp hx with h1 | h1
    · exact h.rej_ok x h1
    · rw [List.mem_singleton] at h1
      subst h1
      exact ⟨hrej, hfin⟩
  · exact h.queue_ok
  · exact h.serv_ok

/-- Helper: a successful enqueue of a fresh request preserves the
bookkeeping invariant. -/
theorem sysInv_generate_enqueue (s : SysState) (h : SysInv s) (r : Request)
    (hid : r.request_id = s.next_request_id)
    (hrej : r.rejected = false) (hfin : r.finish_time = none) :
    SysInv { s with
      next_request_id := s.next_request_id + 1
      queue := s.queue ++ [r] } := by
  have hperm : List.Perm
      (idsOf ({ s with
        next_request_id := s.next_request_id + 1
        queue := s.queue ++ [r] } : SysState).allRequests)
      (idsOf s.allRequests ++ [r.request_id]) := by
    simp only [SysState.allRequests, idsOf, List.map_append, List.map_cons,
      List.map_nil]
    rw [← Multiset.coe_eq_coe]
    simp only [← Multiset.coe_add]
    abel
  have hnotin : r.request_id ∉ idsOf s.allRequests := by
    rw [hid]
    intro hmem
    exact absurd (h.ids_lt _ hmem) (lt_irrefl _)
  refine ⟨?_, ?_, ?_, ?_, ?_, ?_, ?_⟩
  · refine hperm.symm.nodup ?_
    rw [List.nodup_append]
    refine ⟨h.nodup, List.nodup_singleton _, ?_⟩
    intro x hx hx2
    rw [List.mem_singleton] at hx2
    subst hx2
    exact hnotin hx
  · intro n hn
    have hn2 := hperm.subset hn
    show n < s.next_request_id + 1
    rcases List.mem_append.mp hn2 with h1 | h1
    · exact Nat.lt_succ_of_lt (h.ids_lt n h1)
    · rw [List.mem_singleton] at h1
      subst h1
      rw [hid]
      exact Nat.lt_succ_self _
  · show ({ s with
        next_request_id := s.next_request_id + 1
        queue := s.queue ++ [r] } : SysState).allRequests.length =
      s.next_request_id + 1
    have hl := hperm.length_eq
    simp only [idsOf, List.length_map, List.length_append,
      List.length_singleton] at hl
    rw [hl, h.total]
  · exact h.proc_ok
  · exact h.rej_ok
  · intro x hx
    rcases List.mem_append.mp hx with h1 | h1
    · exact h.queue_ok x h1
    · rw [List.mem_singleton] at h1
      subst h1
      exact ⟨hrej, hfin⟩
  · exact h.serv_ok

/-- Helper: rejecting the dequeued head request (wait timeout or empty
active set) preserves the bookkeeping invariant. -/
theorem sysInv_dispatch_reject (s : SysState) (h : SysInv s)
    (rhead : Request) (rest : List Request) (hq : s.queue = rhead :: rest)
    (r : Request) (hid : r.request_id = rhead.request_id)
    (hrej : r.rejected = true) (hfin : r.finish_time = none) :
    SysInv { s with
      queue := rest
      rejected_requests := s.rejected_requests ++ [r] } := by
  have hperm : List.Perm
      (idsOf ({ s with
        queue := rest
        rejected_requests := s.rejected_requests ++ [r] } :
          SysState).allRequests)
      (idsOf s.allRequests) := by
    simp only [SysState.allRequests, idsOf, hq, List.map_append,
      List.map_cons, List.map_nil]
    rw [hid]
    rw [show rhead.request_id :: List.map Request.request_id rest =
      [rhead.request_id] ++ List.map Request.request_id rest from rfl]
    rw [← Multiset.coe_eq_coe]
    simp only [← Multiset.coe_add]
    abel
  refine ⟨hperm.symm.nodup h.nodup, ?_, ?_, h.proc_ok, ?_, ?_, h.serv_ok⟩
  · intro n hn
    exact h.ids_lt n (hperm.subset hn)
  · have hl := hperm.length_eq
    simp only [idsOf, List.length_map] at hl
    show ({ s with
      queue := rest
      rejected_requests := s.rejected_requests ++ [r] } :
        SysState).allRequests.length = s.next_request_id
    rw [hl, h.total]
  · intro x hx
    rcases List.mem_append.mp hx with h1 | h1
    · exact h.rej_ok x h1
    · rw [List.mem_singleton] at h1
      subst h1
      exact ⟨hrej, hfin⟩
  · intro x hx
    exact h.queue_ok x (by rw [hq]; exact List.mem_cons_of_mem _ hx)

/-- Helper: moving the dequeued head request into service preserves the
bookkeeping invariant. -/
theorem sysInv_dispatch_start (s : SysState) (h : SysInv s)
    (rhead : Request) (rest : List Request) (hq : s.queue = rhead :: rest)
    (r : Request) (hid : r.request_id = rhead.request_id)
    (hrej : r.rejected = false) (hfin : r.finish_time = none) :
    SysInv { s with
      queue := rest
      in_service := s.in_service ++ [r] } := by
  have hperm : List.Perm
      (idsOf ({ s with
        queue := rest
        in_service := s.in_service ++ [r] } : SysState).allRequests)
      (idsOf s.allRequests) := by
    simp only [SysState.allRequests, idsOf, hq, List.map_append,
      List.map_cons, List.map_nil]
    rw [hid]
    rw [show rhead.request_id :: List.map Request.request_id rest =
      [rhead.request_id] ++ List.map Request.request_id rest from rfl]
    rw [← Multiset.coe_eq_coe]
    simp only [← Multiset.coe_add]
    abel
  refine ⟨hperm.symm.nodup h.nodup, ?_, ?_, h.proc_ok, h.rej_ok, ?_, ?_⟩
  · intro n hn
    exact h.ids_lt n (hperm.subset hn)
  · have hl := hperm.length_eq
    simp only [idsOf, List.length_map] at hl
    show ({ s with
      queue := rest
      in_service := s.in_service ++ [r] } :
        SysState).allRequests.length = s.next_request_id
    rw [hl, h.total]
  · intro x hx
    exact h.queue_ok x (by rw [hq]; exact List.mem_cons_of_mem _ hx)
  · intro x hx
    rcases List.mem_append.mp hx with h1 | h1
    · exact h.serv_ok x h1
    · rw [List.mem_singleton] at h1
      subst h1
      exact ⟨hrej, hfin⟩

/-- Helper: completing in-service request `k` — stamping its finish time
and appending it to the processed collection — preserves the bookkeeping
invariant. -/
theorem sysInv_complete (s : SysState) (h : SysInv s) (k : Nat)
    (hk : k < s.in_service.length) (t : ℚ) :
    SysInv { s with
      in_service := s.in_service.eraseIdx k
      processed_requests := s.processed_requests ++
        [{ s.in_service.get ⟨k, hk⟩ with finish_time := some t }] } := by
  have hp0 := get_cons_eraseIdx_perm s.in_service k hk
  have hserv := h.serv_ok _ (hp0.subset (List.mem_cons_self _ _))
  have hproj : ({ s.in_service.get ⟨k, hk⟩ with finish_time := some t } :
      Request).request_id = (s.in_service.get ⟨k, hk⟩).request_id := rfl
  have hperm : List.Perm
      (idsOf ({ s with
        in_service := s.in_service.eraseIdx k
        processed_requests := s.processed_requests ++
          [{ s.in_service.get ⟨k, hk⟩ with finish_time := some t }] } :
            SysState).allRequests)
      (idsOf s.allRequests) := by
    have hp : List.Perm
        ([(s.in_service.get ⟨k, hk⟩).request_id] ++
          idsOf (s.in_service.eraseIdx k))
        (idsOf s.in_service) := by
      have := hp0.map Request.request_id
      simpa [idsOf] using this
    simp only [idsOf] at hp
    simp only [SysState.allRequests, idsOf, List.map_append, List.map_cons,
      List.map_nil, hproj]
    rw [← Multiset.coe_eq_coe] at hp ⊢
    simp only [← Multiset.coe_add] at hp ⊢
    rw [← hp]
    abel
  refine ⟨hperm.symm.nodup h.nodup, ?_, ?_, ?_, h.rej_ok, h.queue_ok, ?_⟩
  · intro n hn
    exact h.ids_lt n (hperm.subset hn)
  · have hl := hperm.length_eq
    simp only [idsOf, List.length_map] at hl
    show ({ s with
      in_service := s.in_service.eraseIdx k
      processed_requests := s.processed_requests ++
        [{ s.in_service.get ⟨k, hk⟩ with finish_time := some t }] } :
          SysState).allRequests.length = s.next_request_id
    rw [hl, h.total]
  · intro x hx
    rcases List.mem_append.mp hx with h1 | h1
    · exact h.proc_ok x h1
    · rw [List.mem_singleton] at h1
      subst h1
      exact ⟨hserv.1, rfl⟩
  · intro x hx
    exact h.serv_ok x (hp0.subset (List.mem_cons_of_mem _ hx))

/-- Helper: the state after `CloudSystemModel.__init__` satisfies the
bookkeeping invariant. -/
theorem sysInv_init : SysInv initState := by
  refine ⟨?_, ?_, ?_, ?_, ?_, ?_, ?_⟩ <;>
    simp [initState, SysState.allRequests, idsOf]

/-- Helper: every lifecycle event preserves the bookkeeping invariant. -/
theorem stepEvent_preserves_inv (cfg : SysConfig) (s : SysState)
    (e : SimEvent) (h : SysInv s) : SysInv (stepEvent cfg s e) := by
  cases e with
  | generate t svc =>
    simp only [stepEvent]
    cases cfg.max_requests_in_flight with
    | none => exact sysInv_generate_enqueue s h _ rfl rfl rfl
    | some cap =>
      dsimp only
      by_cases hcap : cap ≤ s.queue.length + s.in_service.length
      · rw [if_pos hcap]
        exact sysInv_generate_reject s h _ rfl rfl rfl
      · rw [if_neg hcap]
        exact sysInv_generate_enqueue s h _ rfl rfl rfl
  | dispatch t d a nid =>
    rcases hq : s.queue with _ | ⟨rhead, rest⟩
    · simp only [stepEvent, hq]
      exact h
    · have hhead := h.queue_ok rhead (by rw [hq]; exact List.mem_cons_self _ _)
      simp only [stepEvent, hq]
      by_cases hto : dispatch_timed_out cfg rhead t = true
      · rw [if_pos hto]
        exact sysInv_dispatch_reject s h rhead rest hq _ rfl rfl hhead.2
      · rw [if_neg hto]
        by_cases ha : a = 0
        · rw [if_pos ha]
          exact sysInv_dispatch_reject s h rhead rest hq _ rfl rfl hhead.2
        · rw [if_neg ha]
          exact sysInv_dispatch_start s h rhead rest hq _ rfl hhead.1 hhead.2
  | complete k t =>
    simp only [stepEvent]
    by_cases hk : k < s.in_service.length
    · rw [dif_pos hk]
      exact sysInv_complete s h k hk t
    · rw [dif_neg hk]
      exact h

/-- Helper: the bookkeeping invariant holds along any event run. -/
theorem runEvents_preserves_inv (cfg : SysConfig) (evs : List SimEvent) :
    ∀ s : SysState, SysInv s → SysInv (runEvents cfg s evs) := by
  induction evs with
  | nil =>
    intro s hs
    exact hs
  | cons e es ih =>
    intro s hs
    exact ih _ (stepEvent_preserves_inv cfg s e hs)

/-- C1 amended: over any run of the request lifecycle, the processed and
rejected collections are disjoint (no request id in both; every processed
request has its finish time set and is not rejected, every rejected
request is flagged rejected and unfinished), and the number of generated
requests equals processed + rejected + the requests still in the queue or
in service — so requests still in flight at run end sit in neither
terminal collection, and only when queue and service are empty do the two
terminal sizes sum to the generated total. -/
theorem request_accounting (cfg : SysConfig) (evs : List SimEvent)
    (s : SysState) (hs : s = runEvents cfg initState evs) :
    (∀ r1 ∈ s.processed_requests, ∀ r2 ∈ s.rejected_requests,
      r1.request_id ≠ r2.request_id) ∧
    (∀ r ∈ s.processed_requests,
      r.rejected = false ∧ r.finish_time.isSome = true) ∧
    (∀ r ∈ s.rejected_requests,
      r.rejected = true ∧ r.finish_time = none) ∧
    s.queue.length + s.in_service.length + s.processed_requests.length +
      s.rejected_requests.length = s.next_request_id := by
  subst hs
  have h := runEvents_preserves_inv cfg evs initState sysInv_init
  refine ⟨?_, h.proc_ok, h.rej_ok, ?_⟩
  · intro r1 h1 r2 h2 heq
    have h0 : (idsOf (runEvents cfg initState evs).queue ++
        (idsOf (runEvents cfg initState evs).in_service ++
          (idsOf (runEvents cfg initState evs).processed_requests ++
            idsOf (runEvents cfg initState evs).rejected_requests))).Nodup := by
      have := h.nodup
      simpa [SysState.allRequests, idsOf, List.map_append,
        List.append_assoc] using this
    have h1' := (List.nodup_append.mp h0).2.1
    have h2' := (List.nodup_append.mp h1').2.1
    have hdisj := (List.nodup_append.mp h2').2.2
    exact hdisj (List.mem_map_of_mem _ h1)
      (by rw [heq]; exact List.mem_map_of_mem _ h2)
  · have ht := h.total
    simp only [SysState.allRequests, List.length_append] at ht
    omega

/-- Witness for C1's amended statement on a concrete five-event run with
one processed, one rejected and no in-flight request left: the four
holding-place sizes sum to the two generated requests. -/
theorem request_accounting_witness :
    (runEvents ⟨none, none⟩ initState
        [SimEvent.generate 0 1, SimEvent.dispatch 0 0 1 0,
         SimEvent.complete 0 2, SimEvent.generate 3 1,
         SimEvent.dispatch 3 0 0 0]).queue.length +
      (runEvents ⟨none, none⟩ initState
        [SimEvent.generate 0 1, SimEvent.dispatch 0 0 1 0,
         SimEvent.complete 0 2, SimEvent.generate 3 1,
         SimEvent.dispatch 3 0 0 0]).in_service.length +
      (runEvents ⟨none, none⟩ initState
        [SimEvent.generate 0 1, SimEvent.dispatch 0 0 1 0,
         SimEvent.complete 0 2, SimEvent.generate 3 1,
         SimEvent.dispatch 3 0 0 0]).processed_requests.length +
      (runEvents ⟨none, none⟩ initState
        [SimEvent.generate 0 1, SimEvent.dispatch 0 0 1 0,
         SimEvent.complete 0 2, SimEvent.generate 3 1,
         SimEvent.dispatch 3 0 0 0]).rejected_requests.length =
      (runEvents ⟨none, none⟩ initState
        [SimEvent.generate 0 1, SimEvent.dispatch 0 0 1 0,
         SimEvent.complete 0 2, SimEvent.generate 3 1,
         SimEvent.dispatch 3 0 0 0]).next_request_id :=
  (request_accounting ⟨none, none⟩
    [SimEvent.generate 0 1, SimEvent.dispatch 0 0 1 0,
     SimEvent.complete 0 2, SimEvent.generate 3 1,
     SimEvent.dispatch 3 0 0 0] _ rfl).2.2.2

/-- C1 counterexample: a run that stops right after one request was
generated and enqueued.  One request was generated, yet the processed and
rejected collections are both empty — their sizes do not sum to the
number generated, because the request still sits in the queue at run end
(the driver stops at `simulation_duration` without draining). -/
theorem request_dropped_at_run_end :
    (runEvents ⟨none, none⟩ initState
      [SimEvent.generate 0 1]).next_request_id = 1 ∧
    (runEvents ⟨none, none⟩ initState
        [SimEvent.generate 0 1]).processed_requests.length +
      (runEvents ⟨none, none⟩ initState
        [SimEvent.generate 0 1]).rejected_requests.length = 0 ∧
    (runEvents ⟨none, none⟩ initState
      [SimEvent.generate 0 1]).queue.length = 1 := by
  refine ⟨rfl, rfl, rfl⟩

/-- C7 amended: for a request driven through the successful completion
path with non-negative waits and delays, the timestamps satisfy the
non-strict chain `finish ≥ start ≥ queue_entry ≥ arrival ≥ 0` with
`queue_entry = arrival` exactly, the chain is strict at `start` when the
drawn network delay is positive and at `finish` when the drawn service
time is positive, and `get_response_time` returns exactly
`finish − arrival`. -/
theorem completed_request_timestamps (rid nid : Nat)
    (arrival queue_wait net_delay slot_wait svc : ℚ)
    (h0 : 0 ≤ arrival) (h1 : 0 ≤ queue_wait) (h2 : 0 ≤ net_delay)
    (h3 : 0 ≤ slot_wait) (h4 : 0 ≤ svc) :
    (completed_request rid arrival queue_wait net_delay slot_wait svc
      nid).queue_entry_time = some arrival ∧
    (completed_request rid arrival queue_wait net_delay slot_wait svc
      nid).start_time = some (arrival + queue_wait + net_delay) ∧
    (completed_request rid arrival queue_wait net_delay slot_wait svc
      nid).finish_time =
        some (arrival + queue_wait + net_delay + slot_wait + svc) ∧
    0 ≤ arrival ∧
    arrival ≤ arrival + queue_wait + net_delay ∧
    arrival + queue_wait + net_delay ≤
      arrival + queue_wait + net_delay + slot_wait + svc ∧
    (0 < net_delay → arrival + queue_wait < arrival + queue_wait + net_delay) ∧
    (0 < svc → arrival + queue_wait + net_delay <
      arrival + queue_wait + net_delay + slot_wait + svc) ∧
    (completed_request rid arrival queue_wait net_delay slot_wait svc
      nid).get_response_time =
        some (arrival + queue_wait + net_delay + slot_wait + svc - arrival) := by
  refine ⟨rfl, rfl, rfl, h0, by linarith, by linarith, ?_, ?_, rfl⟩
  · intro hpos
    linarith
  · intro hpos
    linarith

/-- Witness for C7's amended statement: arrival 0, no queue wait, network
delay 1/10, no slot wait, service time 1. -/
theorem completed_request_timestamps_witness :
    (completed_request 0 0 0 (1/10) 0 1 0).get_response_time =
      some (0 + 0 + 1/10 + 0 + 1 - 0) ∧
    (0 : ℚ) + 0 < 0 + 0 + 1/10 := by
  have h := completed_request_timestamps 0 0 0 0 (1/10) 0 1
    le_rfl le_rfl (by norm_num) le_rfl (by norm_num)
  exact ⟨h.2.2.2.2.2.2.2.2, h.2.2.2.2.2.2.1 (by norm_num)⟩

/-- C7 counterexample: the completion path with a drawn network delay of
0 (possible, since `net_delay_min = 0` by default and
`np.random.uniform` includes its lower bound) and no queue wait stamps
`start_time` equal to `queue_entry_time`, so the claimed strict chain
`finish > start > queue_entry` fails on this completed request. -/
theorem completed_request_strict_chain_fails :
    (completed_request 0 0 0 0 0 1 1).queue_entry_time = some 0 ∧
    (completed_request 0 0 0 0 0 1 1).start_time =
      (completed_request 0 0 0 0 0 1 1).queue_entry_time ∧
    ¬ claimed_strict_chain (completed_request 0 0 0 0 0 1 1) := by
  refine ⟨rfl, ?_, ?_⟩
  · show some ((0 : ℚ) + 0 + 0) = some 0
    norm_num
  · rintro ⟨qe, st, fi, hqe, hst, hfi, hb0, hb1, hlt, hlt2, hresp⟩
    simp only [completed_request] at hqe hst
    rw [Option.some_inj] at hqe hst
    rw [← hqe, ← hst] at hlt
    norm_num at hlt

end CloudSim
